import Mathlib

/-
Shallow embedding of `src/sqlx-core/src/connection.rs`: the generic
`Connection::transaction` helper, the cancellation-guard protocol
(`cancellation_guard` / `Drop for CancellationGuard`), the statement-cache
default hooks, and the `connect` / `connect_with` establishment path.
Async control flow is modelled by sequencing the outcomes of the awaited
collaborator calls (begin / commit / rollback / parse / connect_with),
which are passed in as explicit outcome data; an event trace records which
collaborator calls were issued.
-/

namespace Sqlx

/-- Modelled from the spec: the error kinds of the toolkit's `Error` type.
`crate::error::Error` is not under `src/`; spec section 7 lists the kinds
`ParseError`, `ConnectError`, `IoError`, `ProtocolError`. Only the
distinguishability of the kinds matters to the claims, not their payloads. -/
inductive Error where
  | ParseError (msg : String)
  | ConnectError (msg : String)
  | IoError (msg : String)
  | ProtocolError (msg : String)
deriving DecidableEq, Repr

/-- Collaborator calls the `transaction` helper can issue, in order. -/
inductive TxEvent where
  | beginTx
  | closure
  | commit
  | rollback
deriving DecidableEq, Repr

/-- Outcomes of the awaited collaborator calls inside one run of
`Connection::transaction`: the result of `self.begin()`, of the caller's
closure `f`, of `tx.commit()` and of `tx.rollback()` (`none` = `Ok(())`,
`some err` = `Err(err)`). -/
structure TxBehavior (T E : Type) where
  beginRes : Option Error
  closureRes : Except E T
  commitRes : Option Error
  rollbackRes : Option Error

/-- Embedding of `Connection::transaction` (connection.rs lines 36-63).
`eFrom` is the `E: From<Error>` conversion. Control flow of the source:
`let mut tx = self.begin().await?;` then `match f(&mut tx).await` with
`Ok(r) => { tx.commit().await?; Ok(r) }` and
`Err(e) => { tx.rollback().await?; Err(e) }`. Returns the result together
with the trace of collaborator calls issued. -/
def Connection.transaction {T E : Type} (eFrom : Error → E)
    (b : TxBehavior T E) : Except E T × List TxEvent :=
  match b.beginRes with
  | some err => (Except.error (eFrom err), [TxEvent.beginTx])
  | none =>
    match b.closureRes with
    | Except.ok r =>
      match b.commitRes with
      | some err =>
        (Except.error (eFrom err),
         [TxEvent.beginTx, TxEvent.closure, TxEvent.commit])
      | none =>
        (Except.ok r, [TxEvent.beginTx, TxEvent.closure, TxEvent.commit])
    | Except.error e =>
      match b.rollbackRes with
      | some err =>
        (Except.error (eFrom err),
         [TxEvent.beginTx, TxEvent.closure, TxEvent.rollback])
      | none =>
        (Except.error e,
         [TxEvent.beginTx, TxEvent.closure, TxEvent.rollback])

/-- The connection state visible to this core: the cancellation flag
(the backend socket/session state is opaque to connection.rs). -/
structure ConnState where
  flag : Bool
deriving DecidableEq, Repr

/-- Embedding of `Connection::set_has_cancellation` (line 89). -/
def Connection.set_has_cancellation (c : ConnState) (b : Bool) : ConnState :=
  { c with flag := b }

/-- Embedding of `Connection::has_cancellation` (line 94). -/
def Connection.has_cancellation (c : ConnState) : Bool :=
  c.flag

/-- Embedding of `CancellationGuard` (lines 135-138): the guard's own data
is the `ignore` field; its exclusive borrow of the connection is modelled
by explicit state passing. -/
structure CancellationGuard where
  ignore : Bool
deriving DecidableEq, Repr

/-- Embedding of `Connection::cancellation_guard` (lines 98-101):
`self.set_has_cancellation(false); CancellationGuard { conn: self, ignore: false }`.
Returns the updated connection state and the fresh guard. -/
def Connection.cancellation_guard (c : ConnState) : ConnState × CancellationGuard :=
  (Connection.set_has_cancellation c false, { ignore := false })

/-- Embedding of `Drop for CancellationGuard` (lines 140-146):
`if !self.ignore { self.conn.set_has_cancellation(true); }`. -/
def CancellationGuard.dropGuard (g : CancellationGuard) (c : ConnState) : ConnState :=
  if !g.ignore then Connection.set_has_cancellation c true else c

/-- The success action on the guard: setting the public `ignore` field to
`true` (the `#[must_use]` note on line 97 calls it `.forget()`). -/
def CancellationGuard.forget (g : CancellationGuard) : CancellationGuard :=
  { g with ignore := true }

/-- One round-trip in which the caller invoked the success action before
the guard dropped: acquire the guard, set `ignore`, drop. -/
def cleanRoundTrip (c : ConnState) : ConnState :=
  let p := Connection.cancellation_guard c
  CancellationGuard.dropGuard (CancellationGuard.forget p.2) p.1

/-- One round-trip in which the guard dropped without the success action:
acquire the guard, drop it as created. -/
def dirtyRoundTrip (c : ConnState) : ConnState :=
  let p := Connection.cancellation_guard c
  CancellationGuard.dropGuard p.2 p.1

/-- Embedding of the default `Connection::cached_statements_size`
(lines 66-71): the body is the literal `0`. -/
def Connection.cached_statements_size : Nat :=
  0

/-- Embedding of the default `Connection::clear_cached_statements`
(lines 75-80): the body is `Box::pin(async move { Ok(()) })`. -/
def Connection.clear_cached_statements : Except Error Unit :=
  Except.ok ()

/-- Collaborator calls the `connect` path can issue. -/
inductive ConnectEvent where
  | connectWith
deriving DecidableEq, Repr

/-- Embedding of `Connection::connect` (lines 108-115):
`let options = url.parse(); Ok(Self::connect_with(&options?).await?)`.
`parse` models the backend's `FromStr` for `Options`; `cw` models
`Self::connect_with`. Returns the result and the trace of `connect_with`
invocations. -/
def Connection.connect {O C : Type}
    (parse : String → Except Error O)
    (cw : O → Except Error C)
    (url : String) : Except Error C × List ConnectEvent :=
  match parse url with
  | Except.error e => (Except.error e, [])
  | Except.ok opts => (cw opts, [ConnectEvent.connectWith])

/-- Embedding of the default `Connection::connect_with` (lines 118-123):
`options.connect()`. `optionsConnect` models `ConnectOptions::connect`
(lines 130-132). -/
def Connection.connect_with {O C : Type}
    (optionsConnect : O → Except Error C)
    (options : O) : Except Error C :=
  optionsConnect options

/-- C1 counterexample: with a closure failing with `ProtocolError "x"` and
a rollback failing with `IoError "rollback failed"`, `transaction` returns
the rollback's error, not the closure's original error — the `?` on
`tx.rollback().await?` propagates the rollback failure instead of
swallowing it. -/
theorem C1_rollback_error_propagates :
    (Connection.transaction (T := Nat) (E := Error) id
      { beginRes := none
        closureRes := Except.error (Error.ProtocolError "x")
        commitRes := none
        rollbackRes := some (Error.IoError "rollback failed") }).1
      = Except.error (Error.IoError "rollback failed")
    ∧ (Connection.transaction (T := Nat) (E := Error) id
      { beginRes := none
        closureRes := Except.error (Error.ProtocolError "x")
        commitRes := none
        rollbackRes := some (Error.IoError "rollback failed") }).1
      ≠ Except.error (Error.ProtocolError "x") := by
  refine ⟨rfl, ?_⟩
  intro hcontra
  simp [Connection.transaction] at hcontra

/-- C1 (amended): when the closure fails with error `e`, `transaction`
issues a rollback; if the rollback succeeds it returns exactly `e`, and if
the rollback itself fails with `r` it propagates the rollback error
(converted via `From`) instead of `e`. -/
theorem C1_transaction_rollback {T E : Type} (eFrom : Error → E)
    (b : TxBehavior T E) (e : E)
    (hb : b.beginRes = none) (hc : b.closureRes = Except.error e) :
    (b.rollbackRes = none →
      Connection.transaction eFrom b
        = (Except.error e, [TxEvent.beginTx, TxEvent.closure, TxEvent.rollback]))
    ∧ (∀ r, b.rollbackRes = some r →
      Connection.transaction eFrom b
        = (Except.error (eFrom r),
           [TxEvent.beginTx, TxEvent.closure, TxEvent.rollback])) := by
  constructor
  · intro hr
    simp [Connection.transaction, hb, hc, hr]
  · intro r hr
    simp [Connection.transaction, hb, hc, hr]

/-- C1 witness: concrete run in which the closure fails with
`ProtocolError "x"` and the rollback succeeds; the closure's error comes
back unchanged. -/
theorem C1_transaction_rollback_witness :
    Connection.transaction (T := Nat) (E := Error) id
      { beginRes := none
        closureRes := Except.error (Error.ProtocolError "x")
        commitRes := none
        rollbackRes := none }
      = (Except.error (Error.ProtocolError "x"),
         [TxEvent.beginTx, TxEvent.closure, TxEvent.rollback]) :=
  (C1_transaction_rollback id
    { beginRes := none
      closureRes := Except.error (Error.ProtocolError "x")
      commitRes := none
      rollbackRes := none }
    (Error.ProtocolError "x") rfl rfl).1 rfl

/-- C2: when begin succeeds, the closure succeeds with `r` and the commit
succeeds, `transaction` issues begin, runs the closure, commits, and
returns `Ok(r)`. -/
theorem C2_transaction_commit {T E : Type} (eFrom : Error → E)
    (b : TxBehavior T E) (r : T)
    (hb : b.beginRes = none) (hc : b.closureRes = Except.ok r)
    (hcommit : b.commitRes = none) :
    Connection.transaction eFrom b
      = (Except.ok r, [TxEvent.beginTx, TxEvent.closure, TxEvent.commit]) := by
  simp [Connection.transaction, hb, hc, hcommit]

/-- C2 witness: a closure returning `Ok(42)` on a healthy connection gives
`Ok(42)` after begin, closure, commit. -/
theorem C2_transaction_commit_witness :
    Connection.transaction (T := Nat) (E := Error) id
      { beginRes := none
        closureRes := Except.ok 42
        commitRes := none
        rollbackRes := none }
      = (Except.ok 42, [TxEvent.beginTx, TxEvent.closure, TxEvent.commit]) :=
  C2_transaction_commit id
    { beginRes := none
      closureRes := Except.ok 42
      commitRes := none
      rollbackRes := none }
    42 rfl rfl rfl

/-- C5: when the closure succeeds with `r` but the commit fails with
`cerr`, `transaction` returns the commit's error (converted via `From`)
and the closure's value `r` is discarded — the result is an error, so no
value is returned. -/
theorem C5_commit_failure {T E : Type} (eFrom : Error → E)
    (b : TxBehavior T E) (r : T) (cerr : Error)
    (hb : b.beginRes = none) (hc : b.closureRes = Except.ok r)
    (hcommit : b.commitRes = some cerr) :
    Connection.transaction eFrom b
      = (Except.error (eFrom cerr),
         [TxEvent.beginTx, TxEvent.closure, TxEvent.commit]) := by
  simp [Connection.transaction, hb, hc, hcommit]

/-- C5 witness: a closure returning `Ok(7)` followed by a commit failing
with `IoError "commit failed"` yields that commit error, not `Ok(7)`. -/
theorem C5_commit_failure_witness :
    Connection.transaction (T := Nat) (E := Error) id
      { beginRes := none
        closureRes := Except.ok 7
        commitRes := some (Error.IoError "commit failed")
        rollbackRes := none }
      = (Except.error (Error.IoError "commit failed"),
         [TxEvent.beginTx, TxEvent.closure, TxEvent.commit]) :=
  C5_commit_failure id
    { beginRes := none
      closureRes := Except.ok 7
      commitRes := some (Error.IoError "commit failed")
      rollbackRes := none }
    7 (Error.IoError "commit failed") rfl rfl rfl

/-- C6: when `begin` fails with `berr`, `transaction` returns that error
(converted via `From`) immediately; the trace is exactly `[beginTx]`, so
the closure is never invoked and no commit or rollback is issued. -/
theorem C6_begin_failure {T E : Type} (eFrom : Error → E)
    (b : TxBehavior T E) (berr : Error)
    (hb : b.beginRes = some berr) :
    Connection.transaction eFrom b
      = (Except.error (eFrom berr), [TxEvent.beginTx]) := by
  simp [Connection.transaction, hb]

/-- C6 witness: a begin failing with `ProtocolError "BEGIN rejected"`
yields exactly that error with trace `[beginTx]`, even though the closure
would have succeeded. -/
theorem C6_begin_failure_witness :
    Connection.transaction (T := Nat) (E := Error) id
      { beginRes := some (Error.ProtocolError "BEGIN rejected")
        closureRes := Except.ok 1
        commitRes := none
        rollbackRes := none }
      = (Except.error (Error.ProtocolError "BEGIN rejected"), [TxEvent.beginTx]) :=
  C6_begin_failure id
    { beginRes := some (Error.ProtocolError "BEGIN rejected")
      closureRes := Except.ok 1
      commitRes := none
      rollbackRes := none }
    (Error.ProtocolError "BEGIN rejected") rfl

/-- C3: for every connection state, acquiring a guard and dropping it
without the success action leaves `has_cancellation` true; acquiring a
guard, invoking the success action and then dropping leaves it false. -/
theorem C3_guard_contamination (c : ConnState) :
    Connection.has_cancellation
      (CancellationGuard.dropGuard (Connection.cancellation_guard c).2
        (Connection.cancellation_guard c).1) = true
    ∧ Connection.has_cancellation
      (CancellationGuard.dropGuard
        (CancellationGuard.forget (Connection.cancellation_guard c).2)
        (Connection.cancellation_guard c).1) = false := by
  constructor
  · rfl
  · rfl

/-- C4: for every connection state, acquiring a guard resets the flag to
false regardless of its prior value; two sequential clean round-trips end
with the flag false, and a dirty round-trip followed by a clean one also
ends with the flag false. -/
theorem C4_guard_reset (c : ConnState) :
    Connection.has_cancellation (Connection.cancellation_guard c).1 = false
    ∧ Connection.has_cancellation (cleanRoundTrip (cleanRoundTrip c)) = false
    ∧ Connection.has_cancellation (cleanRoundTrip (dirtyRoundTrip c)) = false := by
  refine ⟨rfl, rfl, rfl⟩

/-- C10: dropping a guard whose `ignore` field is true performs no write
at all to the connection state: the state, and in particular the
cancellation flag, is returned unchanged whatever value it holds. -/
theorem C10_ignored_drop_is_frame (c : ConnState) :
    CancellationGuard.dropGuard { ignore := true } c = c := by
  simp [CancellationGuard.dropGuard]

/-- C7: for every parse function, every `connect_with` and every url on
which parsing fails with a `ParseError`, `connect` returns that
`ParseError` and the trace is empty — `connect_with` is never invoked. -/
theorem C7_connect_parse_failure {O C : Type}
    (parse : String → Except Error O) (cw : O → Except Error C)
    (url msg : String)
    (h : parse url = Except.error (Error.ParseError msg)) :
    Connection.connect parse cw url
      = (Except.error (Error.ParseError msg), []) := by
  simp [Connection.connect, h]

/-- C7 witness: with a parse that rejects every string, connecting to
`"not a url"` returns the `ParseError` and never reaches `connect_with`. -/
theorem C7_connect_parse_failure_witness :
    Connection.connect (O := Unit) (C := Nat)
      (fun _ => Except.error (Error.ParseError "invalid connection string"))
      (fun _ => Except.ok 0)
      "not a url"
      = (Except.error (Error.ParseError "invalid connection string"), []) :=
  C7_connect_parse_failure
    (fun _ => Except.error (Error.ParseError "invalid connection string"))
    (fun _ => Except.ok 0) "not a url" "invalid connection string" rfl

/-- C8: the default `cached_statements_size` is 0 and the default
`clear_cached_statements` returns `Ok(())`. -/
theorem C8_cache_defaults :
    Connection.cached_statements_size = 0
    ∧ Connection.clear_cached_statements = Except.ok () := by
  exact ⟨rfl, rfl⟩

/-- C9: whenever parsing succeeds with options `opts`, `connect` produces
exactly the result of `connect_with` on `opts`; and the default
`connect_with` produces exactly the result of `ConnectOptions::connect`
on the same options. -/
theorem C9_connect_equivalence {O C : Type}
    (parse : String → Except Error O) (cw : O → Except Error C)
    (optionsConnect : O → Except Error C)
    (url : String) (opts : O)
    (h : parse url = Except.ok opts) :
    (Connection.connect parse cw url).1 = cw opts
    ∧ Connection.connect_with optionsConnect opts = optionsConnect opts := by
  constructor
  · simp [Connection.connect, h]
  · rfl

/-- C9 witness: a concrete parse succeeding on `"proto://db"` with unit
options; both equivalences hold at that input. -/
theorem C9_connect_equivalence_witness :
    (Connection.connect (O := Unit) (C := Nat)
      (fun _ => Except.ok ()) (fun _ => Except.ok 5) "proto://db").1
      = Except.ok 5
    ∧ Connection.connect_with (O := Unit) (C := Nat)
        (fun _ => Except.ok 5) () = Except.ok 5 :=
  C9_connect_equivalence
    (fun _ => Except.ok ()) (fun _ => Except.ok 5) (fun _ => Except.ok 5)
    "proto://db" () rfl

end Sqlx
